import Mathlib

/-! server-trojan: inbound and stream configuration builders

A shallow embedding of `internal/pkg/service/inboundbuilder.go`.

* Go pointers are `Option` values (`none` is `nil`).
* Go `(value, error)` results are records with a `val` and an `err` component.
* The calls that leave the package (`json.Unmarshal`, `json.Marshal`, `fmt.Printf`,
  `InboundDetourConfig.Build`) are recorded, in program order, in a trace that every
  function returns next to its result.
* The xray-core and encoding/json routines themselves are not part of the repository; they
  are the fields of an `Engine` record and every theorem holds for every such record.
* The pointers `config`, `nodeInfo` and `trojanInfo` are dereferenced unconditionally by the
  Go code; the embedding starts from the values they point to.
-/

namespace Service

/-- A Go byte slice (`[]byte`, `json.RawMessage`). -/
abbrev Bytes := List UInt8

/-- A non-nil Go `error`, identified with its message. -/
abbrev GoError := String

/-- The conversion `[]byte(s)` of a Go string. -/
def bytesOf (s : String) : Bytes := s.toUTF8.data.toList

/-- The conversion `uint32(x)` of a Go `int`. -/
def uint32 (x : Int) : Nat := (x % 4294967296).toNat

/-! ## Data model -/

/-- The types of xray-core whose declarations the builders treat as black boxes. -/
structure EngineTypes where
  TCPConfig : Type
  WebSocketConfig : Type
  GRPCConfig : Type
  SplitHTTPExtra : Type
  InboundHandlerConfig : Type

/-- Modelled from the spec: the declaration of `CertConfig` is not among the sources; it
holds the certificate-file and key-file paths, as the test file fills them. -/
structure CertConfig where
  CertFile : String
  KeyFile : String
deriving DecidableEq, Repr

/-- Modelled from the spec: the declaration of `Config` is not among the sources; it is the
process configuration with an optional certificate section, the one field the builders
read. -/
structure Config where
  Cert : Option CertConfig
deriving DecidableEq, Repr

/-- The fields of `api.CommonNode` read by the builders. -/
structure CommonNode where
  ServerPort : Int
deriving DecidableEq, Repr

/-- The Trojan sub-descriptor `api.TrojanNode`. -/
structure TrojanNode extends CommonNode where
  Network : String
  NetworkSettings : Bytes
deriving DecidableEq, Repr

/-- The node descriptor `api.NodeInfo`; only `Trojan` is read by the builders. -/
structure NodeInfo where
  Trojan : Option TrojanNode
deriving DecidableEq, Repr

/-- The fields of `conf.Int32Range` the package reads. -/
structure Int32Range where
  From : Int
  To : Int
deriving DecidableEq, Repr

/-- The type `conf.SplitHTTPConfig`: the three fields the package names, and the rest. -/
structure SplitHTTPConfig (S : EngineTypes) where
  Path : String
  Mode : String
  XPaddingBytes : Int32Range
  extra : S.SplitHTTPExtra

/-- The fields of `conf.TLSCertConfig` the package sets. -/
structure TLSCertConfig where
  CertFile : String
  KeyFile : String
deriving DecidableEq, Repr

/-- The fields of `conf.TLSConfig` the package sets. -/
structure TLSConfig where
  Certs : List TLSCertConfig
deriving DecidableEq, Repr

/-- The fields of `conf.StreamConfig` the package sets. -/
structure StreamConfig (S : EngineTypes) where
  Network : Option String
  Security : String
  TLSSettings : Option TLSConfig
  TCPSettings : Option S.TCPConfig
  WSSettings : Option S.WebSocketConfig
  SplitHTTPSettings : Option (SplitHTTPConfig S)
  GRPCSettings : Option S.GRPCConfig

/-- The value `new(conf.StreamConfig)`. -/
def StreamConfig.new (S : EngineTypes) : StreamConfig S :=
  { Network := none, Security := "", TLSSettings := none, TCPSettings := none,
    WSSettings := none, SplitHTTPSettings := none, GRPCSettings := none }

/-- The value `new(conf.TLSConfig)`. -/
def TLSConfig.new : TLSConfig := { Certs := [] }

/-- The type `conf.PortRange`. -/
structure PortRange where
  From : Nat
  To : Nat
deriving DecidableEq, Repr

/-- The type `conf.PortList`. -/
structure PortList where
  Range : List PortRange
deriving DecidableEq, Repr

/-- The fields of `conf.SniffingConfig` the package sets. -/
structure SniffingConfig where
  Enabled : Bool
  DestOverride : Option (List String)
deriving DecidableEq, Repr

/-- The fields of `conf.InboundDetourConfig` the package sets. -/
structure InboundDetourConfig (S : EngineTypes) where
  Protocol : String
  PortList : Option PortList
  Tag : String
  Settings : Option Bytes
  StreamSetting : Option (StreamConfig S)
  SniffingConfig : Option SniffingConfig

/-- The value `&conf.InboundDetourConfig{}`. -/
def InboundDetourConfig.new (S : EngineTypes) : InboundDetourConfig S :=
  { Protocol := "", PortList := none, Tag := "", Settings := none, StreamSetting := none,
    SniffingConfig := none }

/-! ## Calls that leave the package -/

/-- The destination type of a `json.Unmarshal` call. -/
inductive Target where
  | TCPConfig
  | WebSocketConfig
  | SplitHTTPConfig
  | GRPCConfig
  | Int32Range
deriving DecidableEq, Repr

/-- One call that leaves the package. -/
inductive Event (S : EngineTypes) where
  | jsonUnmarshal (data : Bytes) (target : Target)
  | jsonMarshal (clients : List Bytes)
  | printf (output : Bytes)
  | build (cfg : InboundDetourConfig S)

/-- The routines of encoding/json and xray-core that the builders call. A decoder into a
fresh value returns the decoded value or an error; the decoder into an existing
`Int32Range` returns the value left behind together with the error, if any. -/
structure Engine (S : EngineTypes) where
  unmarshalTCP : Bytes → Except GoError S.TCPConfig
  unmarshalWS : Bytes → Except GoError S.WebSocketConfig
  unmarshalSplitHTTP : Bytes → Except GoError (SplitHTTPConfig S)
  unmarshalGRPC : Bytes → Except GoError S.GRPCConfig
  unmarshalInt32Range : Bytes → Int32Range → Int32Range × Option GoError
  marshalSettings : List Bytes → Bytes
  Build : InboundDetourConfig S → Option S.InboundHandlerConfig × Option GoError

/-- The outcome of a Go function returning `(*α, error)`, with the calls it made. -/
structure Out (S : EngineTypes) (α : Type) where
  val : Option α
  err : Option GoError
  trace : List (Event S)

/-- The outcome of a transport builder: the stream configuration it was handed, as it
leaves the builder, the returned error, and the calls made. -/
structure Step (S : EngineTypes) where
  streamSetting : StreamConfig S
  err : Option GoError
  trace : List (Event S)

/-! ## The builders -/

variable {S : EngineTypes}

/-- Go `buildTCPConfig`: a decoding failure is dropped. -/
def buildTCPConfig (E : Engine S) (trojanInfo : TrojanNode) (streamSetting : StreamConfig S) :
    Step S :=
  if trojanInfo.NetworkSettings.length > 0 then
    match E.unmarshalTCP trojanInfo.NetworkSettings with
    | .ok tcpConfig =>
      { streamSetting := { streamSetting with TCPSettings := some tcpConfig }, err := none,
        trace := [Event.jsonUnmarshal trojanInfo.NetworkSettings Target.TCPConfig] }
    | .error _ =>
      { streamSetting := streamSetting, err := none,
        trace := [Event.jsonUnmarshal trojanInfo.NetworkSettings Target.TCPConfig] }
  else
    { streamSetting := streamSetting, err := none, trace := [] }

/-- Go `buildWSConfig`. -/
def buildWSConfig (E : Engine S) (trojanInfo : TrojanNode) (streamSetting : StreamConfig S) :
    Step S :=
  if trojanInfo.NetworkSettings.length > 0 then
    match E.unmarshalWS trojanInfo.NetworkSettings with
    | .error err =>
      { streamSetting := streamSetting, err := some ("unmarshal ws config error: " ++ err),
        trace := [Event.jsonUnmarshal trojanInfo.NetworkSettings Target.WebSocketConfig] }
    | .ok wsConfig =>
      { streamSetting := { streamSetting with WSSettings := some wsConfig }, err := none,
        trace := [Event.jsonUnmarshal trojanInfo.NetworkSettings Target.WebSocketConfig] }
  else
    { streamSetting := streamSetting, err := none, trace := [] }

/-- Go `buildXHTTPConfig`. -/
def buildXHTTPConfig (E : Engine S) (trojanInfo : TrojanNode) (streamSetting : StreamConfig S) :
    Step S :=
  if trojanInfo.NetworkSettings.length > 0 then
    match E.unmarshalSplitHTTP trojanInfo.NetworkSettings with
    | .error err =>
      { streamSetting := streamSetting,
        err := some ("unmarshal splithttp config error: " ++ err),
        trace := [Event.jsonUnmarshal trojanInfo.NetworkSettings Target.SplitHTTPConfig] }
    | .ok splitHTTPConfig =>
      { streamSetting := { streamSetting with SplitHTTPSettings := some splitHTTPConfig },
        err := none,
        trace := [Event.jsonUnmarshal trojanInfo.NetworkSettings Target.SplitHTTPConfig] }
  else
    { streamSetting := streamSetting, err := none, trace := [] }

/-- Go `buildGRPCConfig`. -/
def buildGRPCConfig (E : Engine S) (trojanInfo : TrojanNode) (streamSetting : StreamConfig S) :
    Step S :=
  if trojanInfo.NetworkSettings.length > 0 then
    match E.unmarshalGRPC trojanInfo.NetworkSettings with
    | .error err =>
      { streamSetting := streamSetting, err := some ("unmarshal grpc config error: " ++ err),
        trace := [Event.jsonUnmarshal trojanInfo.NetworkSettings Target.GRPCConfig] }
    | .ok grpcConfig =>
      { streamSetting := { streamSetting with GRPCSettings := some grpcConfig }, err := none,
        trace := [Event.jsonUnmarshal trojanInfo.NetworkSettings Target.GRPCConfig] }
  else
    { streamSetting := streamSetting, err := none, trace := [] }

/-- The string literal `"100-200"` of `BuildStreamConfig`. -/
def paddingRange : String := "100-200"

/-- The value of `fmt.Sprintf` with the format `"%s"` in double quotes, at `paddingRange`. -/
def quotedRange : String := "\"" ++ paddingRange ++ "\""

/-- Go `BuildStreamConfig`. The `return nil, err` of the four cases of the switch is the
`some err` branch after it. -/
def BuildStreamConfig (E : Engine S) (trojanInfo : TrojanNode) (config : Config) :
    Out S (StreamConfig S) :=
  let streamSetting := StreamConfig.new S
  let transportProtocol := trojanInfo.Network
  let streamSetting := { streamSetting with Network := some transportProtocol }
  -- Network Settings
  let step : Step S :=
    if transportProtocol = "tcp" then buildTCPConfig E trojanInfo streamSetting
    else if transportProtocol = "ws" then buildWSConfig E trojanInfo streamSetting
    else if transportProtocol = "xhttp" then buildXHTTPConfig E trojanInfo streamSetting
    else if transportProtocol = "grpc" then buildGRPCConfig E trojanInfo streamSetting
    else { streamSetting := streamSetting, err := none, trace := [] }
  match step.err with
  | some err => { val := none, err := some err, trace := step.trace }
  | none =>
    let streamSetting := step.streamSetting
    -- Security (TLS)
    let tlsSettings := TLSConfig.new
    let streamSetting :=
      match config.Cert with
      | some cert =>
        if cert.CertFile ≠ "" then
          { streamSetting with
            Security := "tls"
            TLSSettings := some { tlsSettings with
              Certs := [{ CertFile := cert.CertFile, KeyFile := cert.KeyFile }] } }
        else
          { streamSetting with Security := "none" }
      | none => { streamSetting with Security := "none" }
    -- XPaddingBytes of SplitHTTP
    match streamSetting.SplitHTTPSettings with
    | some splitHTTP =>
      let decoded := E.unmarshalInt32Range (bytesOf quotedRange) splitHTTP.XPaddingBytes
      let streamSetting :=
        { streamSetting with
          SplitHTTPSettings := some { splitHTTP with XPaddingBytes := decoded.1 } }
      let call := Event.jsonUnmarshal (bytesOf quotedRange) Target.Int32Range
      match decoded.2 with
      | some err =>
        { val := some streamSetting, err := none,
          trace := step.trace ++ [call,
            Event.printf (bytesOf ("Failed to set default XPaddingBytes: " ++ err ++ "\n"))] }
      | none => { val := some streamSetting, err := none, trace := step.trace ++ [call] }
    | none => { val := some streamSetting, err := none, trace := step.trace }

/-- Go `InboundBuilder`. -/
def InboundBuilder (E : Engine S) (config : Config) (nodeInfo : NodeInfo) :
    Out S S.InboundHandlerConfig :=
  match nodeInfo.Trojan with
  | none => { val := none, err := some "node info missing Trojan config", trace := [] }
  | some trojanInfo =>
    let inboundDetourConfig := InboundDetourConfig.new S
    -- Port
    let portList : PortList :=
      { Range := [{ From := uint32 trojanInfo.ServerPort, To := uint32 trojanInfo.ServerPort }] }
    let inboundDetourConfig := { inboundDetourConfig with PortList := some portList }
    -- Tag
    let inboundDetourConfig :=
      { inboundDetourConfig with Tag := "trojan_" ++ toString trojanInfo.ServerPort }
    -- Sniffing
    let sniffingConfig : SniffingConfig :=
      { Enabled := true, DestOverride := some ["http", "tls"] }
    let inboundDetourConfig := { inboundDetourConfig with SniffingConfig := some sniffingConfig }
    -- Protocol
    let inboundDetourConfig := { inboundDetourConfig with Protocol := "trojan" }
    -- Settings
    let clients : List Bytes := []
    let settingsBytes := E.marshalSettings clients
    let inboundDetourConfig := { inboundDetourConfig with Settings := some settingsBytes }
    -- Stream Settings
    let debug : Bytes :=
      bytesOf "Trojan NetworkSettings: " ++ trojanInfo.NetworkSettings ++ bytesOf "\n"
    let before : List (Event S) := [Event.jsonMarshal clients, Event.printf debug]
    let stream := BuildStreamConfig E trojanInfo config
    match stream.err with
    | some err => { val := none, err := some err, trace := before ++ stream.trace }
    | none =>
      let inboundDetourConfig := { inboundDetourConfig with StreamSetting := stream.val }
      let built := E.Build inboundDetourConfig
      { val := built.1, err := built.2,
        trace := before ++ stream.trace ++ [Event.build inboundDetourConfig] }

/-! ## Reading a trace -/

/-- The configurations handed to `InboundDetourConfig.Build`, in call order. -/
def buildCalls : List (Event S) → List (InboundDetourConfig S)
  | [] => []
  | Event.build cfg :: rest => cfg :: buildCalls rest
  | Event.jsonUnmarshal _ _ :: rest => buildCalls rest
  | Event.jsonMarshal _ :: rest => buildCalls rest
  | Event.printf _ :: rest => buildCalls rest

/-- The `json.Unmarshal` calls of a trace, in call order. -/
def unmarshalCalls : List (Event S) → List (Bytes × Target)
  | [] => []
  | Event.jsonUnmarshal data target :: rest => (data, target) :: unmarshalCalls rest
  | Event.build _ :: rest => unmarshalCalls rest
  | Event.jsonMarshal _ :: rest => unmarshalCalls rest
  | Event.printf _ :: rest => unmarshalCalls rest

/-- The number of transport variants of a stream configuration that are set. -/
def populatedVariants (s : StreamConfig S) : Nat :=
  [s.TCPSettings.isSome, s.WSSettings.isSome, s.SplitHTTPSettings.isSome,
    s.GRPCSettings.isSome].count true

/-- The assumption on the range decoder of xray-core under which the padding override
works: the quoted literal decodes to the range 100..200, whatever the destination held. -/
def DecodesPaddingLiteral (E : Engine S) : Prop :=
  ∀ r : Int32Range, (E.unmarshalInt32Range (bytesOf quotedRange) r).1 = { From := 100, To := 200 }

/-! ## A small engine on which the builders can be run -/

/-- The engine types of `testEngine`: settings other than SplitHTTP are kept as the raw
bytes of their object, and a built inbound handler is identified with its tag. -/
abbrev testTypes : EngineTypes :=
  { TCPConfig := Bytes, WebSocketConfig := Bytes, GRPCConfig := Bytes, SplitHTTPExtra := Unit,
    InboundHandlerConfig := String }

/-- Whether a blob starts with an opening brace and ends with a closing brace. -/
def looksLikeObject (data : Bytes) : Bool :=
  data.head? == some 123 && data.getLast? == some 125

/-- The decoder of `testEngine` for the opaque settings types. -/
def testUnmarshalRaw (data : Bytes) : Except GoError Bytes :=
  if looksLikeObject data then .ok data else .error "invalid character"

/-- The blob of `TestSplitHTTPConfigUnmarshal`, a path and a mode. -/
def gunServiceBlob : Bytes :=
  bytesOf "\x7b\"path\": \"/GunService\", \"mode\": \"stream-up\"\x7d"

/-- A blob with a padding range of its own. -/
def paddedBlob : Bytes := bytesOf "\x7b\"xPaddingBytes\": \"5-9\"\x7d"

/-- The blob of `TestSplitHTTPConfigXPadding`, an empty object. -/
def emptyObjectBlob : Bytes := bytesOf "\x7b\x7d"

/-- The SplitHTTP decoder of `testEngine`: it knows three blobs and rejects the others. -/
def testUnmarshalSplitHTTP (data : Bytes) : Except GoError (SplitHTTPConfig testTypes) :=
  if data = emptyObjectBlob then
    .ok { Path := "", Mode := "", XPaddingBytes := { From := 0, To := 0 }, extra := () }
  else if data = gunServiceBlob then
    .ok { Path := "/GunService", Mode := "stream-up", XPaddingBytes := { From := 0, To := 0 },
          extra := () }
  else if data = paddedBlob then
    .ok { Path := "", Mode := "", XPaddingBytes := { From := 5, To := 9 }, extra := () }
  else .error "invalid character"

/-- The value of a run of decimal digits. -/
def parseDigits (data : Bytes) : Option Nat :=
  if data = [] then none
  else data.foldl
    (fun acc b => acc.bind fun n =>
      if 48 ≤ b.toNat ∧ b.toNat ≤ 57 then some (n * 10 + (b.toNat - 48)) else none)
    (some 0)

/-- The range decoder of `testEngine`: a quoted pair of decimal numbers around a dash; on
failure the destination is left as it was. -/
def testUnmarshalInt32Range (data : Bytes) (r : Int32Range) : Int32Range × Option GoError :=
  match data with
  | 34 :: rest =>
    match rest.reverse with
    | 34 :: body =>
      match parseDigits (body.reverse.takeWhile (· != 45)),
        parseDigits ((body.reverse.dropWhile (· != 45)).drop 1) with
      | some a, some b => ({ From := min a b, To := max a b }, none)
      | _, _ => (r, some "invalid integer range")
    | _ => (r, some "invalid integer range")
  | _ => (r, some "invalid integer range")

/-- A small engine: the decoders above, a marshaller that knows the empty client list, and
a `Build` that accepts every configuration. -/
def testEngine : Engine testTypes :=
  { unmarshalTCP := testUnmarshalRaw
    unmarshalWS := testUnmarshalRaw
    unmarshalSplitHTTP := testUnmarshalSplitHTTP
    unmarshalGRPC := testUnmarshalRaw
    unmarshalInt32Range := testUnmarshalInt32Range
    marshalSettings := fun _ => bytesOf "\x7b\"clients\":[]\x7d"
    Build := fun cfg => (some cfg.Tag, none) }

/-- The descriptor of the package tests: port 443 and the given kind and blob. -/
def testNode (network : String) (settings : Bytes) : TrojanNode :=
  { ServerPort := 443, Network := network, NetworkSettings := settings }

/-- The configuration of `TestSplitHTTPConfigUnmarshal`. -/
def certConfig : Config := { Cert := some { CertFile := "cert", KeyFile := "key" } }

/-- The configuration of `TestSplitHTTPConfigXPadding`. -/
def noCertConfig : Config := { Cert := none }

end Service

namespace Service

variable {S : EngineTypes}

/-! ## Stream configuration -/

/-- C1: for a descriptor of kind "xhttp" whose non-empty blob decodes as SplitHTTP settings,
and for every configuration, `BuildStreamConfig` succeeds and the padding range of the
SplitHTTP settings in the result is From = 100, To = 200, whatever range the decoded
settings carried; the range decoder of the engine is assumed to read the literal as that
range. -/
theorem xhttp_padding_range_overwritten (E : Engine S) (trojanInfo : TrojanNode)
    (config : Config) (decoded : SplitHTTPConfig S)
    (hkind : trojanInfo.Network = "xhttp")
    (hnonempty : trojanInfo.NetworkSettings ≠ [])
    (hdecoded : E.unmarshalSplitHTTP trojanInfo.NetworkSettings = .ok decoded)
    (hliteral : DecodesPaddingLiteral E) :
    (BuildStreamConfig E trojanInfo config).err = none ∧
    ∃ s splitHTTP, (BuildStreamConfig E trojanInfo config).val = some s ∧
      s.SplitHTTPSettings = some splitHTTP ∧
      splitHTTP.XPaddingBytes = { From := 100, To := 200 } := by
  have hlen : 0 < trojanInfo.NetworkSettings.length := List.length_pos.mpr hnonempty
  have hpad := hliteral decoded.XPaddingBytes
  cases config with
  | mk cert =>
    cases cert with
    | none =>
      cases hsnd : (E.unmarshalInt32Range (bytesOf quotedRange) decoded.XPaddingBytes).2 <;>
        simp [BuildStreamConfig, buildXHTTPConfig, hkind, hlen, hdecoded, hpad, hsnd]
    | some c =>
      by_cases hfile : c.CertFile = "" <;>
      cases hsnd : (E.unmarshalInt32Range (bytesOf quotedRange) decoded.XPaddingBytes).2 <;>
        simp [BuildStreamConfig, buildXHTTPConfig, hkind, hlen, hdecoded, hpad, hsnd, hfile]

/-- Witness of C1 on a blob that carries the padding range 5..9. -/
theorem xhttp_padding_range_overwritten_witness :
    ((testNode "xhttp" paddedBlob).Network = "xhttp" ∧
      (testNode "xhttp" paddedBlob).NetworkSettings ≠ [] ∧
      testEngine.unmarshalSplitHTTP (testNode "xhttp" paddedBlob).NetworkSettings =
        .ok { Path := "", Mode := "", XPaddingBytes := { From := 5, To := 9 }, extra := () } ∧
      DecodesPaddingLiteral testEngine) ∧
    ((BuildStreamConfig testEngine (testNode "xhttp" paddedBlob) noCertConfig).err = none ∧
      ∃ s splitHTTP,
        (BuildStreamConfig testEngine (testNode "xhttp" paddedBlob) noCertConfig).val = some s ∧
        s.SplitHTTPSettings = some splitHTTP ∧
        splitHTTP.XPaddingBytes = { From := 100, To := 200 }) :=
  ⟨⟨rfl, by decide, rfl, fun _ => rfl⟩,
    xhttp_padding_range_overwritten testEngine (testNode "xhttp" paddedBlob) noCertConfig
      { Path := "", Mode := "", XPaddingBytes := { From := 5, To := 9 }, extra := () }
      rfl (by decide) rfl (fun _ => rfl)⟩

/-- C2: for a descriptor of kind "ws", "xhttp" or "grpc" whose non-empty blob fails to
decode in the schema of that kind, and for every configuration, `BuildStreamConfig`
returns a nil stream configuration and a non-nil error, which is the decoding error behind
the context of the kind, and makes no call after the failed decoding. -/
theorem malformed_settings_abort (E : Engine S) (trojanInfo : TrojanNode) (config : Config)
    (cause : GoError)
    (hnonempty : trojanInfo.NetworkSettings ≠ [])
    (hmalformed :
      (trojanInfo.Network = "ws" ∧
        E.unmarshalWS trojanInfo.NetworkSettings = .error cause) ∨
      (trojanInfo.Network = "xhttp" ∧
        E.unmarshalSplitHTTP trojanInfo.NetworkSettings = .error cause) ∨
      (trojanInfo.Network = "grpc" ∧
        E.unmarshalGRPC trojanInfo.NetworkSettings = .error cause)) :
    (BuildStreamConfig E trojanInfo config).val = none ∧
    (BuildStreamConfig E trojanInfo config).err ≠ none ∧
    (∃ context, (BuildStreamConfig E trojanInfo config).err = some (context ++ cause)) ∧
    (unmarshalCalls (BuildStreamConfig E trojanInfo config).trace).length = 1 := by
  have hlen : 0 < trojanInfo.NetworkSettings.length := List.length_pos.mpr hnonempty
  rcases hmalformed with ⟨hkind, hdec⟩ | ⟨hkind, hdec⟩ | ⟨hkind, hdec⟩
  · refine ⟨?_, ?_, ⟨"unmarshal ws config error: ", ?_⟩, ?_⟩ <;>
      simp [BuildStreamConfig, buildWSConfig, hkind, hlen, hdec, unmarshalCalls]
  · refine ⟨?_, ?_, ⟨"unmarshal splithttp config error: ", ?_⟩, ?_⟩ <;>
      simp [BuildStreamConfig, buildXHTTPConfig, hkind, hlen, hdec, unmarshalCalls]
  · refine ⟨?_, ?_, ⟨"unmarshal grpc config error: ", ?_⟩, ?_⟩ <;>
      simp [BuildStreamConfig, buildGRPCConfig, hkind, hlen, hdec, unmarshalCalls]

/-- Witness of C2 on a "grpc" descriptor whose blob is the two bytes 1, 2. -/
theorem malformed_settings_abort_witness :
    ((testNode "grpc" [1, 2]).NetworkSettings ≠ [] ∧
      (testNode "grpc" [1, 2]).Network = "grpc" ∧
      testEngine.unmarshalGRPC (testNode "grpc" [1, 2]).NetworkSettings =
        .error "invalid character") ∧
    ((BuildStreamConfig testEngine (testNode "grpc" [1, 2]) certConfig).val = none ∧
      (BuildStreamConfig testEngine (testNode "grpc" [1, 2]) certConfig).err ≠ none ∧
      (∃ context, (BuildStreamConfig testEngine (testNode "grpc" [1, 2]) certConfig).err =
        some (context ++ "invalid character")) ∧
      (unmarshalCalls
        (BuildStreamConfig testEngine (testNode "grpc" [1, 2]) certConfig).trace).length = 1) :=
  ⟨⟨by decide, rfl, rfl⟩,
    malformed_settings_abort testEngine (testNode "grpc" [1, 2]) certConfig "invalid character"
      (by decide) (Or.inr (Or.inr ⟨rfl, rfl⟩))⟩

/-- C3: for a descriptor of kind "tcp" whose non-empty blob fails to decode as TCP settings,
and for every configuration, `BuildStreamConfig` returns a nil error and a stream
configuration whose TCP settings are unset. -/
theorem tcp_malformed_settings_ignored (E : Engine S) (trojanInfo : TrojanNode)
    (config : Config) (cause : GoError)
    (hkind : trojanInfo.Network = "tcp")
    (hnonempty : trojanInfo.NetworkSettings ≠ [])
    (hmalformed : E.unmarshalTCP trojanInfo.NetworkSettings = .error cause) :
    (BuildStreamConfig E trojanInfo config).err = none ∧
    ∃ s, (BuildStreamConfig E trojanInfo config).val = some s ∧ s.TCPSettings = none := by
  have hlen : 0 < trojanInfo.NetworkSettings.length := List.length_pos.mpr hnonempty
  cases config with
  | mk cert =>
    cases cert with
    | none => simp [BuildStreamConfig, buildTCPConfig, hkind, hlen, hmalformed, StreamConfig.new]
    | some c =>
      by_cases hfile : c.CertFile = "" <;>
        simp [BuildStreamConfig, buildTCPConfig, hkind, hlen, hmalformed, StreamConfig.new,
          hfile]

/-- Witness of C3 on a "tcp" descriptor whose blob is the two bytes 1, 2. -/
theorem tcp_malformed_settings_ignored_witness :
    ((testNode "tcp" [1, 2]).Network = "tcp" ∧
      (testNode "tcp" [1, 2]).NetworkSettings ≠ [] ∧
      testEngine.unmarshalTCP (testNode "tcp" [1, 2]).NetworkSettings =
        .error "invalid character") ∧
    ((BuildStreamConfig testEngine (testNode "tcp" [1, 2]) certConfig).err = none ∧
      ∃ s, (BuildStreamConfig testEngine (testNode "tcp" [1, 2]) certConfig).val = some s ∧
        s.TCPSettings = none) :=
  ⟨⟨rfl, by decide, rfl⟩,
    tcp_malformed_settings_ignored testEngine (testNode "tcp" [1, 2]) certConfig
      "invalid character" rfl (by decide) rfl⟩

/-- C4: whenever `BuildStreamConfig` succeeds, a configuration whose certificate section is
present with a non-empty certificate file gives Security = "tls" and TLS settings holding
exactly one certificate, with the certificate file and key file of the configuration;
a configuration without certificate section, or with an empty certificate file, gives
Security = "none" and no TLS settings. -/
theorem security_follows_certificate (E : Engine S) (trojanInfo : TrojanNode)
    (config : Config)
    (hok : (BuildStreamConfig E trojanInfo config).err = none) :
    ∃ s, (BuildStreamConfig E trojanInfo config).val = some s ∧
      (∀ cert, config.Cert = some cert → cert.CertFile ≠ "" →
        s.Security = "tls" ∧
        s.TLSSettings =
          some { Certs := [{ CertFile := cert.CertFile, KeyFile := cert.KeyFile }] }) ∧
      ((config.Cert = none ∨ ∃ cert, config.Cert = some cert ∧ cert.CertFile = "") →
        s.Security = "none" ∧ s.TLSSettings = none) := by
  simp only [BuildStreamConfig] at hok ⊢
  generalize hstep : (if trojanInfo.Network = "tcp" then _ else _ : Step S) = step at hok ⊢
  have htls : step.streamSetting.TLSSettings = none := by
    rw [← hstep]
    simp only [buildTCPConfig, buildWSConfig, buildXHTTPConfig, buildGRPCConfig]
    split_ifs <;> (try split) <;> simp [StreamConfig.new]
  rcases step with ⟨st, err, tr⟩
  simp only at htls
  cases err with
  | some e => simp at hok
  | none =>
    cases config with
    | mk cert =>
      cases cert with
      | none =>
        cases hsplit : st.SplitHTTPSettings with
        | none => simp [hsplit, htls]
        | some sh =>
          cases hsnd : (E.unmarshalInt32Range (bytesOf quotedRange) sh.XPaddingBytes).2 <;>
            simp [hsplit, hsnd, htls]
      | some c =>
        by_cases hfile : c.CertFile = "" <;>
        cases hsplit : st.SplitHTTPSettings with
        | none => simp [hsplit, hfile, TLSConfig.new, htls]
        | some sh =>
          cases hsnd : (E.unmarshalInt32Range (bytesOf quotedRange) sh.XPaddingBytes).2 <;>
            simp [hsplit, hsnd, hfile, TLSConfig.new, htls]

/-- Witness of C4 on the descriptor and configuration of `TestSplitHTTPConfigUnmarshal`. -/
theorem security_follows_certificate_witness :
    (BuildStreamConfig testEngine (testNode "xhttp" gunServiceBlob) certConfig).err = none ∧
    ∃ s, (BuildStreamConfig testEngine (testNode "xhttp" gunServiceBlob) certConfig).val =
        some s ∧
      (∀ cert, certConfig.Cert = some cert → cert.CertFile ≠ "" →
        s.Security = "tls" ∧
        s.TLSSettings =
          some { Certs := [{ CertFile := cert.CertFile, KeyFile := cert.KeyFile }] }) ∧
      ((certConfig.Cert = none ∨ ∃ cert, certConfig.Cert = some cert ∧ cert.CertFile = "") →
        s.Security = "none" ∧ s.TLSSettings = none) :=
  ⟨rfl, security_follows_certificate testEngine (testNode "xhttp" gunServiceBlob) certConfig rfl⟩

/-- C5: for a descriptor of kind "tcp", "ws", "xhttp" or "grpc" whose non-empty blob decodes
in the schema of its kind, `BuildStreamConfig` succeeds, the Network of the result is the
kind of the descriptor, exactly one of the four transport variants is set, and each
variant is the decoded value when the kind selects it and unset otherwise; for "xhttp" the
variant is the decoded value with its padding range replaced, so its other fields are as
decoded. -/
theorem one_variant_selected_by_kind (E : Engine S) (trojanInfo : TrojanNode)
    (config : Config)
    (hnonempty : trojanInfo.NetworkSettings ≠ [])
    (hdecodes :
      (trojanInfo.Network = "tcp" ∧
        (E.unmarshalTCP trojanInfo.NetworkSettings).isOk = true) ∨
      (trojanInfo.Network = "ws" ∧
        (E.unmarshalWS trojanInfo.NetworkSettings).isOk = true) ∨
      (trojanInfo.Network = "xhttp" ∧
        (E.unmarshalSplitHTTP trojanInfo.NetworkSettings).isOk = true) ∨
      (trojanInfo.Network = "grpc" ∧
        (E.unmarshalGRPC trojanInfo.NetworkSettings).isOk = true)) :
    (BuildStreamConfig E trojanInfo config).err = none ∧
    ∃ s, (BuildStreamConfig E trojanInfo config).val = some s ∧
      s.Network = some trojanInfo.Network ∧
      populatedVariants s = 1 ∧
      s.TCPSettings =
        (if trojanInfo.Network = "tcp" then
          (E.unmarshalTCP trojanInfo.NetworkSettings).toOption else none) ∧
      s.WSSettings =
        (if trojanInfo.Network = "ws" then
          (E.unmarshalWS trojanInfo.NetworkSettings).toOption else none) ∧
      s.SplitHTTPSettings =
        (if trojanInfo.Network = "xhttp" then
          (E.unmarshalSplitHTTP trojanInfo.NetworkSettings).toOption.map fun decoded =>
            { decoded with
              XPaddingBytes :=
                (E.unmarshalInt32Range (bytesOf quotedRange) decoded.XPaddingBytes).1 }
          else none) ∧
      s.GRPCSettings =
        (if trojanInfo.Network = "grpc" then
          (E.unmarshalGRPC trojanInfo.NetworkSettings).toOption else none) := by
  have hlen : 0 < trojanInfo.NetworkSettings.length := List.length_pos.mpr hnonempty
  rcases config with ⟨cert⟩
  have hcert : (cert = none ∧ True) ∨ (∃ c, cert = some c ∧ c.CertFile = "") ∨
      (∃ c, cert = some c ∧ c.CertFile ≠ "") := by
    cases cert with
    | none => exact Or.inl ⟨rfl, trivial⟩
    | some c =>
      by_cases hfile : c.CertFile = ""
      · exact Or.inr (Or.inl ⟨c, rfl, hfile⟩)
      · exact Or.inr (Or.inr ⟨c, rfl, hfile⟩)
  rcases hdecodes with ⟨hkind, hdec⟩ | ⟨hkind, hdec⟩ | ⟨hkind, hdec⟩ | ⟨hkind, hdec⟩
  · cases hd : E.unmarshalTCP trojanInfo.NetworkSettings with
    | error e => simp [hd, Except.isOk, Except.toBool] at hdec
    | ok v =>
      rcases hcert with ⟨rfl, hfile⟩ | ⟨c, rfl, hfile⟩ | ⟨c, rfl, hfile⟩ <;>
        simp [BuildStreamConfig, buildTCPConfig, hkind, hlen, hd, hfile, StreamConfig.new,
          populatedVariants, Except.toOption]
  · cases hd : E.unmarshalWS trojanInfo.NetworkSettings with
    | error e => simp [hd, Except.isOk, Except.toBool] at hdec
    | ok v =>
      rcases hcert with ⟨rfl, hfile⟩ | ⟨c, rfl, hfile⟩ | ⟨c, rfl, hfile⟩ <;>
        simp [BuildStreamConfig, buildWSConfig, hkind, hlen, hd, hfile, StreamConfig.new,
          populatedVariants, Except.toOption]
  · cases hd : E.unmarshalSplitHTTP trojanInfo.NetworkSettings with
    | error e => simp [hd, Except.isOk, Except.toBool] at hdec
    | ok v =>
      rcases hcert with ⟨rfl, hfile⟩ | ⟨c, rfl, hfile⟩ | ⟨c, rfl, hfile⟩ <;>
      cases hsnd : (E.unmarshalInt32Range (bytesOf quotedRange) v.XPaddingBytes).2 <;>
        simp [BuildStreamConfig, buildXHTTPConfig, hkind, hlen, hd, hfile, hsnd,
          StreamConfig.new, populatedVariants, Except.toOption]
  · cases hd : E.unmarshalGRPC trojanInfo.NetworkSettings with
    | error e => simp [hd, Except.isOk, Except.toBool] at hdec
    | ok v =>
      rcases hcert with ⟨rfl, hfile⟩ | ⟨c, rfl, hfile⟩ | ⟨c, rfl, hfile⟩ <;>
        simp [BuildStreamConfig, buildGRPCConfig, hkind, hlen, hd, hfile, StreamConfig.new,
          populatedVariants, Except.toOption]

/-- Witness of C5 on the descriptor of `TestSplitHTTPConfigUnmarshal`. -/
theorem one_variant_selected_by_kind_witness :
    ((testNode "xhttp" gunServiceBlob).NetworkSettings ≠ [] ∧
      (testNode "xhttp" gunServiceBlob).Network = "xhttp" ∧
      (testEngine.unmarshalSplitHTTP (testNode "xhttp" gunServiceBlob).NetworkSettings).isOk =
        true) ∧
    ((BuildStreamConfig testEngine (testNode "xhttp" gunServiceBlob) certConfig).err = none ∧
      ∃ s, (BuildStreamConfig testEngine (testNode "xhttp" gunServiceBlob) certConfig).val =
          some s ∧
        s.Network = some "xhttp" ∧
        populatedVariants s = 1 ∧
        s.TCPSettings = none ∧
        s.WSSettings = none ∧
        s.SplitHTTPSettings =
          some { Path := "/GunService", Mode := "stream-up",
                 XPaddingBytes := { From := 100, To := 200 }, extra := () } ∧
        s.GRPCSettings = none) :=
  ⟨⟨by decide, rfl, rfl⟩,
    one_variant_selected_by_kind testEngine (testNode "xhttp" gunServiceBlob) certConfig
      (by decide) (Or.inr (Or.inr (Or.inl ⟨rfl, rfl⟩)))⟩

/-- C9: for a descriptor whose blob is empty, whatever its kind, and for every
configuration, `BuildStreamConfig` succeeds without any call to a decoder (its trace is
empty) and leaves the four transport variants unset; for "xhttp" in particular the
SplitHTTP settings stay unset, so no padding range is attached. -/
theorem empty_settings_skip_decoding (E : Engine S) (trojanInfo : TrojanNode)
    (config : Config)
    (hempty : trojanInfo.NetworkSettings = []) :
    (BuildStreamConfig E trojanInfo config).err = none ∧
    (BuildStreamConfig E trojanInfo config).trace = [] ∧
    ∃ s, (BuildStreamConfig E trojanInfo config).val = some s ∧
      s.TCPSettings = none ∧ s.WSSettings = none ∧ s.SplitHTTPSettings = none ∧
      s.GRPCSettings = none := by
  rcases config with ⟨cert⟩
  have hcert : (cert = none ∧ True) ∨ (∃ c, cert = some c ∧ c.CertFile = "") ∨
      (∃ c, cert = some c ∧ c.CertFile ≠ "") := by
    cases cert with
    | none => exact Or.inl ⟨rfl, trivial⟩
    | some c =>
      by_cases hfile : c.CertFile = ""
      · exact Or.inr (Or.inl ⟨c, rfl, hfile⟩)
      · exact Or.inr (Or.inr ⟨c, rfl, hfile⟩)
  rcases hcert with ⟨rfl, hfile⟩ | ⟨c, rfl, hfile⟩ | ⟨c, rfl, hfile⟩ <;>
  by_cases h1 : trojanInfo.Network = "tcp" <;>
  by_cases h2 : trojanInfo.Network = "ws" <;>
  by_cases h3 : trojanInfo.Network = "xhttp" <;>
  by_cases h4 : trojanInfo.Network = "grpc" <;>
    simp [BuildStreamConfig, buildTCPConfig, buildWSConfig, buildXHTTPConfig,
      buildGRPCConfig, hempty, h1, h2, h3, h4, hfile, StreamConfig.new]

/-- Witness of C9 on an "xhttp" descriptor with an empty blob. -/
theorem empty_settings_skip_decoding_witness :
    (testNode "xhttp" []).NetworkSettings = [] ∧
    ((BuildStreamConfig testEngine (testNode "xhttp" []) certConfig).err = none ∧
      (BuildStreamConfig testEngine (testNode "xhttp" []) certConfig).trace = [] ∧
      ∃ s, (BuildStreamConfig testEngine (testNode "xhttp" []) certConfig).val = some s ∧
        s.TCPSettings = none ∧ s.WSSettings = none ∧ s.SplitHTTPSettings = none ∧
        s.GRPCSettings = none) :=
  ⟨rfl, empty_settings_skip_decoding testEngine (testNode "xhttp" []) certConfig rfl⟩

/-- C10: for a descriptor whose kind is none of "tcp", "ws", "xhttp", "grpc", for every
blob and every configuration, `BuildStreamConfig` returns no error and calls no decoder;
the result has the kind of the descriptor as Network, none of the four transport variants
set, and the security fields decided from the configuration alone. -/
theorem unknown_kind_sets_no_variant (E : Engine S) (trojanInfo : TrojanNode)
    (config : Config)
    (htcp : trojanInfo.Network ≠ "tcp") (hws : trojanInfo.Network ≠ "ws")
    (hxhttp : trojanInfo.Network ≠ "xhttp") (hgrpc : trojanInfo.Network ≠ "grpc") :
    (BuildStreamConfig E trojanInfo config).err = none ∧
    (BuildStreamConfig E trojanInfo config).trace = [] ∧
    ∃ s, (BuildStreamConfig E trojanInfo config).val = some s ∧
      s.Network = some trojanInfo.Network ∧
      s.TCPSettings = none ∧ s.WSSettings = none ∧ s.SplitHTTPSettings = none ∧
      s.GRPCSettings = none ∧
      (∀ cert, config.Cert = some cert → cert.CertFile ≠ "" →
        s.Security = "tls" ∧
        s.TLSSettings =
          some { Certs := [{ CertFile := cert.CertFile, KeyFile := cert.KeyFile }] }) ∧
      ((config.Cert = none ∨ ∃ cert, config.Cert = some cert ∧ cert.CertFile = "") →
        s.Security = "none" ∧ s.TLSSettings = none) := by
  rcases config with ⟨cert⟩
  cases cert with
  | none => simp [BuildStreamConfig, htcp, hws, hxhttp, hgrpc, StreamConfig.new]
  | some c =>
    by_cases hfile : c.CertFile = "" <;>
      simp [BuildStreamConfig, htcp, hws, hxhttp, hgrpc, StreamConfig.new, hfile,
        TLSConfig.new]

/-- Witness of C10 on a descriptor of kind "kcp" with a blob no decoder accepts. -/
theorem unknown_kind_sets_no_variant_witness :
    ((testNode "kcp" [1, 2]).Network ≠ "tcp" ∧ (testNode "kcp" [1, 2]).Network ≠ "ws" ∧
      (testNode "kcp" [1, 2]).Network ≠ "xhttp" ∧ (testNode "kcp" [1, 2]).Network ≠ "grpc") ∧
    ((BuildStreamConfig testEngine (testNode "kcp" [1, 2]) certConfig).err = none ∧
      (BuildStreamConfig testEngine (testNode "kcp" [1, 2]) certConfig).trace = [] ∧
      ∃ s, (BuildStreamConfig testEngine (testNode "kcp" [1, 2]) certConfig).val = some s ∧
        s.Network = some "kcp" ∧
        s.TCPSettings = none ∧ s.WSSettings = none ∧ s.SplitHTTPSettings = none ∧
        s.GRPCSettings = none ∧
        (∀ cert, certConfig.Cert = some cert → cert.CertFile ≠ "" →
          s.Security = "tls" ∧
          s.TLSSettings =
            some { Certs := [{ CertFile := cert.CertFile, KeyFile := cert.KeyFile }] }) ∧
        ((certConfig.Cert = none ∨ ∃ cert, certConfig.Cert = some cert ∧ cert.CertFile = "") →
          s.Security = "none" ∧ s.TLSSettings = none)) :=
  ⟨⟨by decide, by decide, by decide, by decide⟩,
    unknown_kind_sets_no_variant testEngine (testNode "kcp" [1, 2]) certConfig
      (by decide) (by decide) (by decide) (by decide)⟩

/-! ## Inbound configuration -/

/-- The `Build` calls of a concatenation are those of its parts. -/
theorem buildCalls_append (a b : List (Event S)) :
    buildCalls (a ++ b) = buildCalls a ++ buildCalls b := by
  induction a with
  | nil => rfl
  | cons e rest ih => cases e <;> simp [buildCalls, ih]

/-- The function `BuildStreamConfig` never calls `Build`. -/
theorem buildCalls_BuildStreamConfig (E : Engine S) (trojanInfo : TrojanNode)
    (config : Config) :
    buildCalls (BuildStreamConfig E trojanInfo config).trace = [] := by
  simp only [BuildStreamConfig]
  generalize hstep : (if trojanInfo.Network = "tcp" then _ else _ : Step S) = step
  have hcalls : buildCalls step.trace = [] := by
    rw [← hstep]
    simp only [buildTCPConfig, buildWSConfig, buildXHTTPConfig, buildGRPCConfig]
    split_ifs <;> (try split) <;> simp [buildCalls]
  rcases step with ⟨st, err, tr⟩
  simp only at hcalls
  cases err with
  | some e => simpa using hcalls
  | none =>
    simp only
    split
    · split <;> simp [buildCalls_append, hcalls, buildCalls]
    · simpa using hcalls

/-- A call of `InboundBuilder` on a node with a Trojan sub-descriptor leaves a non-empty
trace: it starts with the marshalling of the settings and the debug line. -/
theorem InboundBuilder_trace_ne_nil (E : Engine S) (config : Config) (nodeInfo : NodeInfo)
    (trojanInfo : TrojanNode) (hnode : nodeInfo.Trojan = some trojanInfo) :
    (InboundBuilder E config nodeInfo).trace ≠ [] := by
  simp only [InboundBuilder, hnode]
  split <;> simp

/-- The `Build` calls of `InboundBuilder` when the stream configuration is built. -/
theorem buildCalls_InboundBuilder (E : Engine S) (config : Config) (nodeInfo : NodeInfo)
    (trojanInfo : TrojanNode) (hnode : nodeInfo.Trojan = some trojanInfo)
    (hstream : (BuildStreamConfig E trojanInfo config).err = none) :
    buildCalls (InboundBuilder E config nodeInfo).trace =
      [{ Protocol := "trojan"
         PortList := some { Range := [{ From := uint32 trojanInfo.ServerPort,
                                        To := uint32 trojanInfo.ServerPort }] }
         Tag := "trojan_" ++ toString trojanInfo.ServerPort
         Settings := some (E.marshalSettings [])
         StreamSetting := (BuildStreamConfig E trojanInfo config).val
         SniffingConfig := some { Enabled := true, DestOverride := some ["http", "tls"] } }] := by
  simp [InboundBuilder, hnode, hstream, buildCalls_append, buildCalls_BuildStreamConfig,
    buildCalls, InboundDetourConfig.new]

/-- The `Build` calls of `InboundBuilder`, whatever the outcome, carry the tag of the port. -/
theorem buildCalls_InboundBuilder_tag (E : Engine S) (config : Config) (nodeInfo : NodeInfo)
    (trojanInfo : TrojanNode) (hnode : nodeInfo.Trojan = some trojanInfo) :
    ∀ cfg ∈ buildCalls (InboundBuilder E config nodeInfo).trace,
      cfg.Tag = "trojan_" ++ toString trojanInfo.ServerPort := by
  cases hstream : (BuildStreamConfig E trojanInfo config).err with
  | none =>
    rw [buildCalls_InboundBuilder E config nodeInfo trojanInfo hnode hstream]
    simp
  | some e =>
    simp [InboundBuilder, hnode, hstream, buildCalls_append, buildCalls_BuildStreamConfig,
      buildCalls]

/-- C6: for every configuration and every node without Trojan sub-descriptor,
`InboundBuilder` returns no inbound configuration and a non-nil error, and has made no
call at all by then: no decoder was run for a stream configuration and `Build` was not
invoked. -/
theorem missing_trojan_fails_first (E : Engine S) (config : Config) (nodeInfo : NodeInfo)
    (hmissing : nodeInfo.Trojan = none) :
    (InboundBuilder E config nodeInfo).val = none ∧
    (InboundBuilder E config nodeInfo).err = some "node info missing Trojan config" ∧
    (InboundBuilder E config nodeInfo).trace = [] := by
  simp [InboundBuilder, hmissing]

/-- Witness of C6 on the node without sub-descriptor. -/
theorem missing_trojan_fails_first_witness :
    ({ Trojan := none } : NodeInfo).Trojan = none ∧
    ((InboundBuilder testEngine certConfig { Trojan := none }).val = none ∧
      (InboundBuilder testEngine certConfig { Trojan := none }).err =
        some "node info missing Trojan config" ∧
      (InboundBuilder testEngine certConfig { Trojan := none }).trace = []) :=
  ⟨rfl, missing_trojan_fails_first testEngine certConfig { Trojan := none } rfl⟩

/-- C7: for a node with a Trojan sub-descriptor of server port p on which the stream
configuration is built, `InboundBuilder` calls `Build` once, returns what that call
returns, and the configuration handed over has the tag "trojan_" followed by the decimal
rendering of p; every call of `InboundBuilder` on a sub-descriptor with the same port hands
the same tag to `Build`. -/
theorem inbound_tag_is_trojan_port (E : Engine S) (config : Config) (nodeInfo : NodeInfo)
    (trojanInfo : TrojanNode)
    (hnode : nodeInfo.Trojan = some trojanInfo)
    (hstream : (BuildStreamConfig E trojanInfo config).err = none) :
    ∃ cfg, buildCalls (InboundBuilder E config nodeInfo).trace = [cfg] ∧
      ((InboundBuilder E config nodeInfo).val, (InboundBuilder E config nodeInfo).err) =
        E.Build cfg ∧
      cfg.Tag = "trojan_" ++ toString trojanInfo.ServerPort ∧
      ∀ (E2 : Engine S) (config2 : Config) (nodeInfo2 : NodeInfo) (trojanInfo2 : TrojanNode),
        nodeInfo2.Trojan = some trojanInfo2 →
        trojanInfo2.ServerPort = trojanInfo.ServerPort →
        ∀ cfg2 ∈ buildCalls (InboundBuilder E2 config2 nodeInfo2).trace, cfg2.Tag = cfg.Tag := by
  refine ⟨_, buildCalls_InboundBuilder E config nodeInfo trojanInfo hnode hstream, ?_, rfl, ?_⟩
  · simp [InboundBuilder, hnode, hstream, InboundDetourConfig.new]
  · intro E2 config2 nodeInfo2 trojanInfo2 hnode2 hport cfg2 hmem
    rw [buildCalls_InboundBuilder_tag E2 config2 nodeInfo2 trojanInfo2 hnode2 cfg2 hmem, hport]

/-- Witness of C7 on the node of `TestSplitHTTPConfigUnmarshal`, port 443. -/
theorem inbound_tag_is_trojan_port_witness :
    (({ Trojan := some (testNode "xhttp" gunServiceBlob) } : NodeInfo).Trojan =
        some (testNode "xhttp" gunServiceBlob) ∧
      (BuildStreamConfig testEngine (testNode "xhttp" gunServiceBlob) certConfig).err = none) ∧
    ∃ cfg,
      buildCalls (InboundBuilder testEngine certConfig
        { Trojan := some (testNode "xhttp" gunServiceBlob) }).trace = [cfg] ∧
      cfg.Tag = "trojan_443" :=
  ⟨⟨rfl, rfl⟩,
    (inbound_tag_is_trojan_port testEngine certConfig
      { Trojan := some (testNode "xhttp" gunServiceBlob) } (testNode "xhttp" gunServiceBlob)
      rfl rfl).imp fun _ h => ⟨h.1, h.2.2.1⟩⟩

/-- C8: for a node with a Trojan sub-descriptor of server port p between 1 and 65535 on
which the stream configuration is built, the configuration `InboundBuilder` hands to
`Build` has a port list of exactly one range, whose From and To both equal p: the
conversion to uint32 loses nothing. -/
theorem inbound_port_range_is_single_port (E : Engine S) (config : Config)
    (nodeInfo : NodeInfo) (trojanInfo : TrojanNode)
    (hnode : nodeInfo.Trojan = some trojanInfo)
    (hstream : (BuildStreamConfig E trojanInfo config).err = none)
    (hlow : 1 ≤ trojanInfo.ServerPort) (hhigh : trojanInfo.ServerPort ≤ 65535) :
    ∃ cfg range, buildCalls (InboundBuilder E config nodeInfo).trace = [cfg] ∧
      cfg.PortList = some { Range := [range] } ∧
      (range.From : Int) = trojanInfo.ServerPort ∧
      (range.To : Int) = trojanInfo.ServerPort := by
  have hconv : ((uint32 trojanInfo.ServerPort : Nat) : Int) = trojanInfo.ServerPort := by
    unfold uint32
    omega
  exact ⟨_, _, buildCalls_InboundBuilder E config nodeInfo trojanInfo hnode hstream, rfl,
    hconv, hconv⟩

/-- Witness of C8 on the node of the package tests, port 443. -/
theorem inbound_port_range_is_single_port_witness :
    (({ Trojan := some (testNode "xhttp" emptyObjectBlob) } : NodeInfo).Trojan =
        some (testNode "xhttp" emptyObjectBlob) ∧
      (BuildStreamConfig testEngine (testNode "xhttp" emptyObjectBlob) noCertConfig).err = none ∧
      1 ≤ (testNode "xhttp" emptyObjectBlob).ServerPort ∧
      (testNode "xhttp" emptyObjectBlob).ServerPort ≤ 65535) ∧
    ∃ cfg range,
      buildCalls (InboundBuilder testEngine noCertConfig
        { Trojan := some (testNode "xhttp" emptyObjectBlob) }).trace = [cfg] ∧
      cfg.PortList = some { Range := [range] } ∧
      (range.From : Int) = 443 ∧ (range.To : Int) = 443 :=
  ⟨⟨rfl, rfl, by decide, by decide⟩,
    inbound_port_range_is_single_port testEngine noCertConfig
      { Trojan := some (testNode "xhttp" emptyObjectBlob) } (testNode "xhttp" emptyObjectBlob)
      rfl rfl (by decide) (by decide)⟩

end Service
